import Mathlib

/-!
Shallow embedding of the non-trivial logic of the tutorial dashboard page.

The UserProfile widget keeps four independent pieces of component state
(user, loading, error, randomNumber) and a fetchUser routine that clears
them, schedules a delayed completion, and on completion draws a random
number, compares it against the threshold 0.7 and writes either the fixed
success payload or the error message.  The mount effect's cleanup only
logs; it does not clear the scheduled timeout.  We model the component as
a state record plus an event-step function: events are a call to
fetchUser (start), the firing of the oldest pending timeout with a given
random draw (fire), and unmounting the component (dispose).  All pending
timeouts run the same callback, so the pending set is modelled by a
count.  Random draws are rationals; the threshold 0.7 is the rational
mkRat 7 10.

The TodoList widget's toggleTodo and the Counter widget's
increment/decrement/reset handlers are embedded as pure functions.
-/

/-- The User record of the source: name and email strings. -/
structure User where
  name : String
  email : String
deriving DecidableEq

/-- The fixed payload written by fetchUser on success. -/
def payload : User :=
  { name := "Jesse Zhang", email := "zz597375428@gmail.com" }

/-- The error message written by fetchUser on failure. -/
def errMsg : String := "Failed to load user data"

/-- Component state of UserProfile: the four useState cells, the number of
pending timeouts scheduled by fetchUser, and whether the component is
still mounted. -/
structure UPState where
  user : Option User
  loading : Bool
  error : Option String
  randomNumber : Option ℚ
  pending : Nat
  mounted : Bool
deriving DecidableEq

/-- Initial state: all cells at their useState initial values, no pending
timeout, mounted. -/
def init : UPState :=
  { user := none, loading := false, error := none, randomNumber := none,
    pending := 0, mounted := true }

/-- Events acting on UserProfile: a call to fetchUser, the firing of the
oldest pending timeout with random draw r, and unmounting (which runs the
effect cleanup, which only logs). -/
inductive Event where
  | start
  | fire (r : ℚ)
  | dispose
deriving DecidableEq

/-- The threshold of the comparison "random > 0.7" in the source. -/
def threshold : ℚ := mkRat 7 10

/-- One event applied to the state, read off the source of fetchUser and
the mount effect.  start: setLoading(true), setError(null), setUser(null),
setRandomNumber(null) and schedule one more timeout.  fire r: if no
timeout is pending nothing happens; otherwise the callback runs:
setRandomNumber(random), then if random > 0.7 setError and setUser(null),
else setUser(payload) and setError(null), then setLoading(false).
dispose: the cleanup only logs, so only the mounted flag changes; the
pending timeout is not cleared. -/
def step (s : UPState) : Event → UPState
  | Event.start =>
      { s with loading := true, error := none, user := none,
               randomNumber := none, pending := s.pending + 1 }
  | Event.fire r =>
      if s.pending = 0 then s
      else if r > threshold then
        { s with randomNumber := some r, error := some errMsg, user := none,
                 loading := false, pending := s.pending - 1 }
      else
        { s with randomNumber := some r, user := some payload, error := none,
                 loading := false, pending := s.pending - 1 }
  | Event.dispose => { s with mounted := false }

/-- The state reached from the initial state by a list of events. -/
def run (es : List Event) : UPState := es.foldl step init

/-- The pair (user, error) a completion with draw r writes. -/
def outcome (r : ℚ) : Option User × Option String :=
  if r > threshold then (none, some errMsg) else (some payload, none)

/-- Render condition of the log-in placeholder: !loading && !error && !user. -/
def showsLogin (s : UPState) : Bool :=
  !s.loading && s.error.isNone && s.user.isNone

/-- Render condition of the loading indicator: loading. -/
def showsLoading (s : UPState) : Bool := s.loading

/-- Render condition of the success panel: user. -/
def showsSuccess (s : UPState) : Bool := s.user.isSome

/-- Render condition of the failure panel: error. -/
def showsFailure (s : UPState) : Bool := s.error.isSome

/-- How many of the three panels named by the spec (loading indicator,
success panel, failure panel) are rendered in state s. -/
def specPanelCount (s : UPState) : Nat :=
  (cond (showsLoading s) 1 0) + (cond (showsSuccess s) 1 0) +
    (cond (showsFailure s) 1 0)

/-- How many of the four conditional branches of the display layer render
in state s: the log-in placeholder plus the three panels of the spec. -/
def renderPanelCount (s : UPState) : Nat :=
  (cond (showsLogin s) 1 0) + specPanelCount s

/-- A Todo item of the TodoList widget. -/
structure Todo where
  id : ℤ
  text : String
  completed : Bool
deriving DecidableEq

/-- toggleTodo maps over the list, negating completed on each item whose
id equals the argument and keeping every other item as is. -/
def toggleTodo (todos : List Todo) (i : ℤ) : List Todo :=
  todos.map (fun todo =>
    if todo.id = i then { todo with completed := !todo.completed } else todo)

/-- The initial todo list of the source. -/
def initialTodos : List Todo :=
  [ { id := 1, text := "Learn React useState", completed := true },
    { id := 2, text := "Master useEffect", completed := true },
    { id := 3, text := "Understand props", completed := false },
    { id := 4, text := "Practice conditional rendering", completed := false },
    { id := 5, text := "Build awesome apps", completed := false } ]

/-- Counter increment handler: setCount(count + 1). -/
def increment (count : ℤ) : ℤ := count + 1

/-- Counter decrement handler: setCount(count - 1). -/
def decrement (count : ℤ) : ℤ := count - 1

/-- Counter reset handler: setCount(0). -/
def reset (_ : ℤ) : ℤ := 0

/-- Invariant maintained by every event: user and error are never both
set, loading implies both results are clear, and a set result implies a
set random number. -/
def StateInv (s : UPState) : Prop :=
  (s.user = none ∨ s.error = none) ∧
    (s.loading = true → s.user = none ∧ s.error = none) ∧
    ((s.user ≠ none ∨ s.error ≠ none) → s.randomNumber ≠ none)

lemma stateInv_step (s : UPState) (e : Event) (h : StateInv s) :
    StateInv (step s e) := by
  obtain ⟨h1, h2, h3⟩ := h
  cases e with
  | start => simp [step, StateInv]
  | fire r =>
      by_cases hp : s.pending = 0
      · simpa [step, hp, StateInv] using ⟨h1, h2, h3⟩
      · by_cases hr : r > threshold <;> simp [step, hp, hr, StateInv]
  | dispose =>
      simpa [step, StateInv] using ⟨h1, h2, h3⟩

lemma stateInv_foldl :
    ∀ (es : List Event) (s : UPState), StateInv s → StateInv (es.foldl step s)
  | [], _, h => h
  | e :: es, s, h => stateInv_foldl es (step s e) (stateInv_step s e h)

lemma stateInv_run (es : List Event) : StateInv (run es) :=
  stateInv_foldl es init (by simp [StateInv, init])

lemma renderPanelCount_eq_one (s : UPState) (h : StateInv s) :
    renderPanelCount s = 1 := by
  obtain ⟨h1, h2, h3⟩ := h
  rcases s with ⟨u, l, e, rn, p, m⟩
  cases l <;> rcases u with _ | u <;> rcases e with _ | e <;>
    simp_all [renderPanelCount, specPanelCount, showsLogin, showsLoading,
      showsSuccess, showsFailure]

/-- Claim C1: at every reachable state of the UserProfile controller, the
success result (user) and the failure result (error) are never both set:
one of them is null. -/
theorem c1_mutual_exclusion (es : List Event) :
    (run es).user = none ∨ (run es).error = none :=
  (stateInv_run es).1

/-- Claim C2, counterexample: after start() is called twice, the first
completion (one of the two pending timeouts) is not a no-op: it flips
loading to false and sets user to the payload while the second request is
still pending, so it does change observable state, contradicting the
claim that a stale completion changes nothing. -/
theorem c2_counterexample :
    (run [Event.start, Event.start]).user = none ∧
    (run [Event.start, Event.start]).loading = true ∧
    (run [Event.start, Event.start]).pending = 2 ∧
    (run [Event.start, Event.start, Event.fire (mkRat 2 5)]).user = some payload ∧
    (run [Event.start, Event.start, Event.fire (mkRat 2 5)]).loading = false ∧
    (run [Event.start, Event.start, Event.fire (mkRat 2 5)]).pending = 1 := by
  decide

/-- Claim C2, amended: there is no token check, so when start() is called
a second time before the first completion fires, the first completion is
applied when it fires (its outcome is transiently observable); because
completions fire in scheduling order, the state after both completions
have fired carries exactly the second completion's outcome. -/
theorem c2_amended (r1 r2 : ℚ) :
    ((run [Event.start, Event.start, Event.fire r1]).user,
      (run [Event.start, Event.start, Event.fire r1]).error) = outcome r1 ∧
    (run [Event.start, Event.start, Event.fire r1]).loading = false ∧
    (run [Event.start, Event.start, Event.fire r1]).pending = 1 ∧
    ((run [Event.start, Event.start, Event.fire r1, Event.fire r2]).user,
      (run [Event.start, Event.start, Event.fire r1, Event.fire r2]).error)
      = outcome r2 ∧
    (run [Event.start, Event.start, Event.fire r1, Event.fire r2]).randomNumber
      = some r2 ∧
    (run [Event.start, Event.start, Event.fire r1, Event.fire r2]).pending = 0 := by
  by_cases h1 : threshold < r1 <;> by_cases h2 : threshold < r2 <;>
    simp [run, step, outcome, init, h1, h2]

/-- Claim C3: a single start() followed by its completion with draw r
sets user to the fixed payload exactly when r is at most 0.7 and sets the
error exactly when r exceeds 0.7; in particular draw 0.4 succeeds with
the fixed payload and draw 0.9 fails. -/
theorem c3_threshold :
    (∀ r : ℚ,
      ((run [Event.start, Event.fire r]).user = some payload ↔ r ≤ threshold) ∧
      ((run [Event.start, Event.fire r]).error = some errMsg ↔ threshold < r)) ∧
    (run [Event.start, Event.fire (mkRat 2 5)]).user = some payload ∧
    (run [Event.start, Event.fire (mkRat 9 10)]).error = some errMsg := by
  refine ⟨fun r => ?_, by decide, by decide⟩
  by_cases hr : threshold < r
  · constructor <;> simp [run, step, init, hr, not_le.mpr hr]
  · constructor <;> simp [run, step, init, hr, not_lt.mp hr]

/-- Claim C4, counterexample: the effect cleanup only logs, so disposing
the controller before the pending completion fires does not cancel it:
the timeout is still pending after disposal, and when it fires it still
mutates the state. -/
theorem c4_counterexample :
    (run [Event.start, Event.dispose]).mounted = false ∧
    (run [Event.start, Event.dispose]).pending = 1 ∧
    (run [Event.start, Event.dispose]).user = none ∧
    (run [Event.start, Event.dispose, Event.fire (mkRat 2 5)]).user
      = some payload := by
  decide

/-- Claim C4, amended: disposal unmounts the component but does not
cancel any pending completion: the pending count is unchanged, and a
completion firing after disposal still runs its callback and writes its
outcome. -/
theorem c4_amended (s : UPState) (r : ℚ) (h : s.pending ≠ 0) :
    (step s Event.dispose).pending = s.pending ∧
    (step s Event.dispose).mounted = false ∧
    ((step (step s Event.dispose) (Event.fire r)).user,
      (step (step s Event.dispose) (Event.fire r)).error) = outcome r := by
  by_cases hr : threshold < r <;> simp [step, outcome, h, hr]

theorem c4_amended_witness :
    (run [Event.start]).pending ≠ 0 ∧
    ((step (run [Event.start]) Event.dispose).pending
        = (run [Event.start]).pending ∧
      (step (run [Event.start]) Event.dispose).mounted = false ∧
      ((step (step (run [Event.start]) Event.dispose)
          (Event.fire (mkRat 2 5))).user,
        (step (step (run [Event.start]) Event.dispose)
          (Event.fire (mkRat 2 5))).error) = outcome (mkRat 2 5)) :=
  ⟨by decide, c4_amended (run [Event.start]) (mkRat 2 5) (by decide)⟩

/-- Claim C5: every call to start(), from any state, sets loading and
clears user, error and the drawn random value. -/
theorem c5_start_reset (s : UPState) :
    (step s Event.start).loading = true ∧ (step s Event.start).user = none ∧
    (step s Event.start).error = none ∧
    (step s Event.start).randomNumber = none := by
  simp [step]

/-- Claim C6, counterexample: in the initial state, which the component
renders before its mount effect runs, none of the three panels named by
the claim (loading indicator, success panel, failure panel) is rendered:
the display layer shows the log-in placeholder instead, so the count of
rendered claim panels is zero, not one. -/
theorem c6_counterexample : specPanelCount (run []) = 0 := by decide

/-- Claim C6, amended: every reachable state renders exactly one of the
four conditional branches of the display layer: the log-in placeholder,
the loading indicator, the success panel, or the failure panel. -/
theorem c6_amended (es : List Event) : renderPanelCount (run es) = 1 :=
  renderPanelCount_eq_one (run es) (stateInv_run es)

/-- Claim C7, counterexample: when a second request is still pending, a
completion that transitions the state to Failed is followed by a further
transition without any user input: the remaining pending completion fires
and moves the state to Succeeded. -/
theorem c7_counterexample :
    (run [Event.start, Event.start, Event.fire (mkRat 9 10)]).error
      = some errMsg ∧
    (run [Event.start, Event.start, Event.fire (mkRat 9 10)]).user = none ∧
    (run [Event.start, Event.start, Event.fire (mkRat 9 10)]).pending = 1 ∧
    (run [Event.start, Event.start, Event.fire (mkRat 9 10),
      Event.fire (mkRat 2 5)]).user = some payload ∧
    (run [Event.start, Event.start, Event.fire (mkRat 9 10),
      Event.fire (mkRat 2 5)]).error = none := by
  decide

/-- Claim C7, amended: from a Failed state with no pending completion, no
event other than start() changes the observable state, and no new request
gets scheduled: the Failed state is stable until the user triggers
start() again. -/
theorem c7_amended (s : UPState) (e : Event) (hp : s.pending = 0)
    (_hF : s.error ≠ none) (he : e ≠ Event.start) :
    (step s e).user = s.user ∧ (step s e).error = s.error ∧
    (step s e).loading = s.loading ∧
    (step s e).randomNumber = s.randomNumber ∧ (step s e).pending = 0 := by
  cases e with
  | start => exact absurd rfl he
  | fire r => simp [step, hp]
  | dispose => simp [step, hp]

theorem c7_witness :
    ((run [Event.start, Event.fire (mkRat 9 10)]).pending = 0 ∧
      (run [Event.start, Event.fire (mkRat 9 10)]).error ≠ none ∧
      Event.dispose ≠ Event.start) ∧
    ((step (run [Event.start, Event.fire (mkRat 9 10)]) Event.dispose).user
        = (run [Event.start, Event.fire (mkRat 9 10)]).user ∧
      (step (run [Event.start, Event.fire (mkRat 9 10)]) Event.dispose).error
        = (run [Event.start, Event.fire (mkRat 9 10)]).error ∧
      (step (run [Event.start, Event.fire (mkRat 9 10)]) Event.dispose).loading
        = (run [Event.start, Event.fire (mkRat 9 10)]).loading ∧
      (step (run [Event.start, Event.fire (mkRat 9 10)])
          Event.dispose).randomNumber
        = (run [Event.start, Event.fire (mkRat 9 10)]).randomNumber ∧
      (step (run [Event.start, Event.fire (mkRat 9 10)])
          Event.dispose).pending = 0) :=
  ⟨⟨by decide, by decide, by decide⟩,
    c7_amended (run [Event.start, Event.fire (mkRat 9 10)]) Event.dispose
      (by decide) (by decide) (by decide)⟩

/-- Claim C8: at every reachable state, if user or error is set then the
stored random number is set too, so the success and failure panels always
have a drawn value to display. -/
theorem c8_random_accompanies (es : List Event)
    (h : (run es).user ≠ none ∨ (run es).error ≠ none) :
    (run es).randomNumber ≠ none :=
  (stateInv_run es).2.2 h

theorem c8_witness :
    ((run [Event.start, Event.fire (mkRat 2 5)]).user ≠ none ∨
      (run [Event.start, Event.fire (mkRat 2 5)]).error ≠ none) ∧
    (run [Event.start, Event.fire (mkRat 2 5)]).randomNumber ≠ none :=
  ⟨Or.inl (by decide),
    c8_random_accompanies [Event.start, Event.fire (mkRat 2 5)]
      (Or.inl (by decide))⟩

/-- Claim C9: toggleTodo preserves the length and order of the list; at
every position, an item whose id equals the argument keeps its id and
text and has its completed flag negated, and an item whose id differs is
unchanged; if no item has the id, the list is unchanged. -/
theorem c9_toggleTodo_frame (todos : List Todo) (i : ℤ) :
    (toggleTodo todos i).length = todos.length ∧
    (∀ (n : Nat) (t : Todo), todos[n]? = some t →
      (t.id = i →
        (toggleTodo todos i)[n]? =
          some { id := t.id, text := t.text, completed := !t.completed }) ∧
      (t.id ≠ i → (toggleTodo todos i)[n]? = some t)) ∧
    ((∀ t ∈ todos, t.id ≠ i) → toggleTodo todos i = todos) := by
  refine ⟨by simp [toggleTodo], ?_, ?_⟩
  · intro n t ht
    constructor <;> intro hid
    · cases t
      simp [toggleTodo, List.getElem?_map, ht, hid]
      exact hid
    · simp [toggleTodo, List.getElem?_map, ht, hid]
  · intro hall
    have hmap : todos.map (fun todo =>
        if todo.id = i then { todo with completed := !todo.completed }
        else todo) = todos.map id :=
      List.map_congr_left (fun t ht => by simp [hall t ht])
    simpa [toggleTodo] using hmap

theorem c9_witness :
    (toggleTodo initialTodos 3).length = initialTodos.length ∧
    (toggleTodo initialTodos 3)[2]?
      = some { id := 3, text := "Understand props", completed := true } ∧
    (toggleTodo initialTodos 3)[0]?
      = some { id := 1, text := "Learn React useState", completed := true } ∧
    toggleTodo initialTodos 42 = initialTodos :=
  ⟨(c9_toggleTodo_frame initialTodos 3).1,
    ((c9_toggleTodo_frame initialTodos 3).2.1 2
      { id := 3, text := "Understand props", completed := false }
      (by decide)).1 (by decide),
    ((c9_toggleTodo_frame initialTodos 3).2.1 0
      { id := 1, text := "Learn React useState", completed := true }
      (by decide)).2 (by decide),
    (c9_toggleTodo_frame initialTodos 42).2.2 (by decide)⟩

/-- Claim C10: increment followed by decrement returns the count to its
original value, increment adds exactly one, decrement subtracts exactly
one, and reset yields zero from any count. -/
theorem c10_counter (count : ℤ) :
    decrement (increment count) = count ∧ increment count = count + 1 ∧
    decrement count = count - 1 ∧ reset count = 0 := by
  simp [increment, decrement, reset]
